import Mathlib

/-!
Shallow embedding of the user CRUD backend (the richer variant with the
`{id, name, email, role, birth, age, timestamp}` schema).  Pure Lean
definitions mirror the Go handlers and the SQL shaping logic; the record
store is modelled as an explicit state (a list of rows plus the
store-assigned counters and the read-time clock).  External store
behaviour that the handlers rely on — the integer cast of the textual id
parameter, the ILIKE operator, the unique-email constraint, the generated
age column — is modelled per standard PostgreSQL semantics.
-/

namespace SimpleCrud

/-- Calendar date, as stored in the `birth DATE NOT NULL` column. -/
structure Date where
  year : Int
  month : Nat
  day : Nat
deriving DecidableEq, Repr

/-- Age in whole years, per the schema's generated column
`age INTEGER GENERATED ALWAYS AS (EXTRACT(YEAR FROM AGE(birth)))`:
the year count of the interval from `birth` to the current date,
i.e. the year difference less one when the birthday has not yet
occurred this year. -/
def ageOf (today birth : Date) : Int :=
  if birth.month < today.month then today.year - birth.year
  else if birth.month = today.month ∧ birth.day ≤ today.day then today.year - birth.year
  else today.year - birth.year - 1

/-- A persisted row of the `users` table.  The `age` column is generated
from `birth`, so it is not stored in the model; reads recompute it via
`ageOf` (see `userOfRow`). -/
structure Row where
  id : Int
  name : String
  email : String
  role : String
  birth : Date
  timestamp : Nat
deriving DecidableEq, Repr

/-- The record store: the table contents plus the store-assigned
sequence (`id SERIAL`), the clock used for `CURRENT_TIMESTAMP`, and the
current date used by the generated `age` column at read time. -/
structure Store where
  rows : List Row
  nextId : Int
  now : Date
  nowTs : Nat
deriving DecidableEq, Repr

/-- The wire-level User record produced by scanning
`SELECT id, name, email, role, birth, age, timestamp`. -/
structure User where
  id : Int
  name : String
  email : String
  role : String
  birth : Date
  age : Int
  timestamp : Nat
deriving DecidableEq, Repr

/-- Reading a row out of the store: the generated `age` column is
recomputed from `birth` and the current date. -/
def userOfRow (now : Date) (r : Row) : User :=
  { id := r.id, name := r.name, email := r.email, role := r.role,
    birth := r.birth, age := ageOf now r.birth, timestamp := r.timestamp }

/-- JSON value carried in the envelope's `data` field.  Only the shapes
the handlers actually produce are represented: `null`, a single user
object, or a non-empty array of user objects. -/
inductive Payload where
  | null
  | user (u : User)
  | userList (l : List User)
deriving DecidableEq, Repr

/-- The APIResponse struct: `{success, code, message, data}`. -/
structure APIResponse where
  success : Bool
  code : Nat
  message : String
  data : Payload
deriving DecidableEq, Repr

/-- A transport-level reply: the HTTP status written by WriteHeader plus
the encoded envelope body. -/
structure HttpReply where
  status : Nat
  body : APIResponse
deriving DecidableEq, Repr

/-- Mirror of the Go helper: writes `code` as the HTTP status and encodes
an APIResponse built from the same four arguments.  (The encode-failure
fallback branch is transport IO and has no counterpart in the model.) -/
def sendJSONResponse (success : Bool) (code : Nat) (message : String) (data : Payload) : HttpReply :=
  { status := code,
    body := { success := success, code := code, message := message, data := data } }

/-- Marshalling of the `[]User` slice that getUsers accumulates:
the handler declares `var users []User` and only appends, so the slice
is nil exactly when no row was scanned, and encoding/json marshals a nil
slice as JSON `null` (a non-empty slice as an array). -/
def marshalUsers (users : List User) : Payload :=
  if users.isEmpty then Payload.null else Payload.userList users

/-! ### The List query builder (getUsers, query construction) -/

/-- The fixed SELECT head of the List query. -/
def baseSelect : String := "SELECT id, name, email, role, birth, age, timestamp FROM users"

/-- The single search condition added when `search` is non-empty. -/
def searchCondition : String := " WHERE (name ILIKE $1 OR email ILIKE $1 OR role ILIKE $1)"

/-- The bound argument for the search condition: the raw search value
wrapped in `%` wildcards, with no escaping of LIKE metacharacters. -/
def searchPattern (search : String) : String := "%" ++ search ++ "%"

/-- The allow-list of sortable columns (the Go `validSorts` map; every
key maps to itself). -/
def validSorts : List (String × String) :=
  [("name", "name"), ("email", "email"), ("role", "role"),
   ("age", "age"), ("timestamp", "timestamp")]

/-- The keys of `validSorts`. -/
def allowedSortFields : List String := ["name", "email", "role", "age", "timestamp"]

/-- The ORDER BY column and direction chosen from the `sort` and `order`
parameters: a recognized `sort` keeps its own name with direction DESC
exactly when `order = "desc"`; otherwise the default `timestamp DESC`. -/
def sortClause (sortBy order : String) : String × String :=
  match validSorts.lookup sortBy with
  | some sortField => (sortField, if order = "desc" then "DESC" else "ASC")
  | none => ("timestamp", "DESC")

/-- SQL text plus positional bound arguments. -/
structure BuiltQuery where
  text : String
  args : List String
deriving DecidableEq, Repr

/-- The filtered SELECT before the ORDER BY clause, together with the
bound arguments: the WHERE condition and the `%search%` argument are
added exactly when `search` is non-empty. -/
def filteredSelect (search : String) : String × List String :=
  if search ≠ "" then (baseSelect ++ searchCondition, [searchPattern search])
  else (baseSelect, [])

/-- The full List query built by getUsers from the three parameters. -/
def buildUsersQuery (search sortBy order : String) : BuiltQuery :=
  let withWhere := filteredSelect search
  let clause := sortClause sortBy order
  { text := withWhere.1 ++ " ORDER BY " ++ clause.1 ++ " " ++ clause.2,
    args := withWhere.2 }

/-! ### PostgreSQL ILIKE semantics (the store-side evaluation of the
search condition) -/

/-- PostgreSQL LIKE/ILIKE pattern matching over character lists, with
case folding (ILIKE): `%` matches any sequence, `_` matches any single
character, any other pattern character matches itself case-insensitively.
The default escape character `\` is not modelled; no theorem below uses a
backslash in a pattern. -/
def ilikeChars : List Char → List Char → Bool
  | [], s => s.isEmpty
  | '%' :: ps, s => s.tails.any (fun t => ilikeChars ps t)
  | '_' :: ps, s =>
    match s with
    | [] => false
    | _ :: cs => ilikeChars ps cs
  | p :: ps, s =>
    match s with
    | [] => false
    | c :: cs => (p.toLower == c.toLower) && ilikeChars ps cs

/-- String-level ILIKE: `ilike pattern s` is `s ILIKE pattern`. -/
def ilike (pattern s : String) : Bool := ilikeChars pattern.toList s.toList

/-- The search condition evaluated on one row: the disjunction
`name ILIKE $1 OR email ILIKE $1 OR role ILIKE $1` with `$1` bound to
`%search%`. -/
def rowMatchesSearch (search : String) (r : Row) : Bool :=
  ilike (searchPattern search) r.name || ilike (searchPattern search) r.email ||
    ilike (searchPattern search) r.role

/-- The WHERE filtering performed by the store for a List request: no
condition (hence every row) when `search` is empty, otherwise the rows
satisfying the search condition. -/
def filterRows (search : String) (rows : List Row) : List Row :=
  if search = "" then rows else rows.filter (fun r => rowMatchesSearch search r)

/-- Case-insensitive literal substring containment, following the
specification's wording for the search filter ("case-insensitively
contains the search substring"); used only to compare the spec's claimed
semantics against the ILIKE semantics the code actually gets. -/
def specContainsCI (hay needle : String) : Bool :=
  (hay.toList.map Char.toLower).tails.any
    (fun t => (needle.toList.map Char.toLower).isPrefixOf t)

/-- The specification's claimed row filter: `name`, `email` or `role`
case-insensitively contains the search substring. -/
def specRowMatches (search : String) (r : Row) : Bool :=
  specContainsCI r.name search || specContainsCI r.email search ||
    specContainsCI r.role search

/-! ### The store-side ORDER BY evaluation -/

/-- Column comparison for ORDER BY: ascending comparison on the chosen
column, with the generated `age` column recomputed from `birth`.
Unrecognized field names never reach this function with anything but the
five allow-listed columns or the default `timestamp`. -/
def keyLE (now : Date) (field : String) (a b : Row) : Bool :=
  match field with
  | "name" => a.name ≤ b.name
  | "email" => a.email ≤ b.email
  | "role" => a.role ≤ b.role
  | "age" => ageOf now a.birth ≤ ageOf now b.birth
  | _ => a.timestamp ≤ b.timestamp

/-- Ordering of the result set per the ORDER BY clause: some order
consistent with the chosen column and direction (modelled as an
insertion sort with the corresponding comparison). -/
def orderRows (now : Date) (field dir : String) (rows : List Row) : List Row :=
  rows.insertionSort
    (fun a b => (if dir = "DESC" then keyLE now field b a else keyLE now field a b) = true)

/-! ### The text-to-integer cast the store applies to the id parameter -/

/-- Digit-sequence accumulator for `castInt`. -/
def parseDigitsAux : List Char → Nat → Option Nat
  | [], acc => some acc
  | c :: cs, acc =>
    if c.isDigit then parseDigitsAux cs (acc * 10 + (c.toNat - 48)) else none

/-- Model of the PostgreSQL text-to-integer cast applied to the `$1`
parameter compared with the `id` column in getUser, updateUser and
deleteUser: an optional sign followed by one or more digits; anything
else fails the cast (error 22P02, which the driver surfaces as a query
error, not as `sql.ErrNoRows`).  Surrounding whitespace, which
PostgreSQL would also accept, is not modelled and unused below. -/
def castInt (s : String) : Option Int :=
  match s.toList with
  | [] => none
  | '-' :: cs =>
    match cs with
    | [] => none
    | _ => (parseDigitsAux cs 0).map (fun n => -(n : Int))
  | '+' :: cs =>
    match cs with
    | [] => none
    | _ => (parseDigitsAux cs 0).map (fun n => (n : Int))
  | cs => (parseDigitsAux cs 0).map (fun n => (n : Int))

/-- The store error message for a failed integer cast of the id token. -/
def castErrorMessage (idToken : String) : String :=
  "pq: invalid input syntax for type integer: \"" ++ idToken ++ "\""

/-- The store error message for a violated unique-email constraint. -/
def uniqueViolationMessage : String :=
  "pq: duplicate key value violates unique constraint \"users_email_key\""

/-- Row lookup by primary key (`WHERE id = $1` after a successful cast). -/
def findRow (rows : List Row) (n : Int) : Option Row :=
  rows.find? (fun r => r.id == n)

/-- The unique-email constraint check the store performs on a write. -/
def emailTaken (rows : List Row) (email : String) : Bool :=
  rows.any (fun r => r.email == email)

/-! ### The handlers -/

/-- The getUsers handler: builds the filtered, ordered query, scans the
result rows into a `[]User` slice and sends a 200 envelope.  The SQL
text is `buildUsersQuery`; its store-side evaluation is the composition
of `filterRows`, `orderRows` on the `sortClause` column, and the
per-row scan `userOfRow`. -/
def getUsers (search sortBy order : String) (st : Store) : HttpReply :=
  let clause := sortClause sortBy order
  let rows := orderRows st.now clause.1 clause.2 (filterRows search st.rows)
  let users := rows.map (userOfRow st.now)
  sendJSONResponse true 200 "Users fetched successfully" (marshalUsers users)

/-- The getUser handler: passes the raw path token as the `$1` parameter
of `SELECT ... WHERE id = $1`.  A failed integer cast is a store error
(500 branch); `sql.ErrNoRows` is the 404 branch; otherwise the scanned
row is returned. -/
def getUser (idToken : String) (st : Store) : HttpReply :=
  match castInt idToken with
  | none => sendJSONResponse false 500 (castErrorMessage idToken) Payload.null
  | some n =>
    match findRow st.rows n with
    | none => sendJSONResponse false 404 "User not found" Payload.null
    | some r =>
      sendJSONResponse true 200 "User fetched successfully" (Payload.user (userOfRow st.now r))

/-- A decoded request body for create/update.  `role` is an `Option` to
distinguish a body that specifies the field from one that omits it;
encoding/json decodes an omitted field to the Go zero value `""`
(`decodedRole`). -/
structure RequestBody where
  name : String
  email : String
  role : Option String
  birth : Date
deriving DecidableEq, Repr

/-- The role value after JSON decoding into the Go `User` struct: the
empty string when the body does not specify a role. -/
def decodedRole (b : RequestBody) : String := b.role.getD ""

/-- The createUser handler: `INSERT INTO users (name, email, role, birth)
VALUES ($1, $2, $3, $4) RETURNING id, age, timestamp`.  The role column
is always bound explicitly (to the decoded value, `""` when absent), so
the schema's column default never applies.  A unique-email violation is
a store error (500 branch); on success the decoded body plus the
returned `id`, generated `age` and assigned `timestamp` is sent with
201. -/
def createUser (body : RequestBody) (st : Store) : HttpReply × Store :=
  if emailTaken st.rows body.email then
    (sendJSONResponse false 500 uniqueViolationMessage Payload.null, st)
  else
    let r : Row := { id := st.nextId, name := body.name, email := body.email,
                     role := decodedRole body, birth := body.birth, timestamp := st.nowTs }
    let st' : Store := { st with rows := st.rows ++ [r], nextId := st.nextId + 1 }
    (sendJSONResponse true 201 "User created successfully"
      (Payload.user (userOfRow st.now r)), st')

/-- The row produced by `UPDATE users SET name = $1, email = $2,
role = $3, birth = $4 WHERE id = $5` on a matching row: all four mutable
columns overwritten, `id` and `timestamp` untouched (and the generated
`age` column recomputed from the new `birth` at the next read). -/
def updatedRow (body : RequestBody) (r : Row) : Row :=
  { r with name := body.name, email := body.email,
           role := decodedRole body, birth := body.birth }

/-- The updateUser handler: a failed id cast is a store error on the
UPDATE (500 branch); zero affected rows is the 404 branch; a
unique-email violation on the write is a store error (500 branch, no
mutation); otherwise the matching row is overwritten and the handler
re-reads the row by id (`SELECT ... WHERE id = $1`) and returns that
re-read record with 200 (the dead `sql.ErrNoRows` branch of the re-read
maps to 500 as in the source). -/
def updateUser (idToken : String) (body : RequestBody) (st : Store) : HttpReply × Store :=
  match castInt idToken with
  | none => (sendJSONResponse false 500 (castErrorMessage idToken) Payload.null, st)
  | some n =>
    match findRow st.rows n with
    | none => (sendJSONResponse false 404 "User not found" Payload.null, st)
    | some _ =>
      if emailTaken (st.rows.filter (fun r => !(r.id == n))) body.email then
        (sendJSONResponse false 500 uniqueViolationMessage Payload.null, st)
      else
        let st' : Store :=
          { st with rows := st.rows.map (fun r => if r.id == n then updatedRow body r else r) }
        match findRow st'.rows n with
        | none => (sendJSONResponse false 500 "sql: no rows in result set" Payload.null, st')
        | some r' =>
          (sendJSONResponse true 200 "User updated successfully"
            (Payload.user (userOfRow st.now r')), st')

/-- The deleteUser handler: a failed id cast is a store error on the
DELETE (500 branch); zero affected rows is the 404 branch; otherwise the
matching row is removed and a 200 envelope with null data is sent. -/
def deleteUser (idToken : String) (st : Store) : HttpReply × Store :=
  match castInt idToken with
  | none => (sendJSONResponse false 500 (castErrorMessage idToken) Payload.null, st)
  | some n =>
    let remaining := st.rows.filter (fun r => !(r.id == n))
    if remaining.length == st.rows.length then
      (sendJSONResponse false 404 "User not found" Payload.null, st)
    else
      (sendJSONResponse true 200 "User deleted successfully" Payload.null,
        { st with rows := remaining })

/-- The healthDB handler: a failed ping is a 500 envelope carrying the
ping error's text, a successful ping a 200 envelope; data is null either
way. -/
def healthDB (pingError : Option String) : HttpReply :=
  match pingError with
  | some msg =>
    sendJSONResponse false 500 ("Database connection failed: " ++ msg) Payload.null
  | none => sendJSONResponse true 200 "Database connection healthy" Payload.null

/-- The user list carried by a reply, empty for any non-array data. -/
def listedUsers (rep : HttpReply) : List User :=
  match rep.body.data with
  | Payload.userList l => l
  | _ => []

/-- The envelope contract: a failure envelope carries null data, and the
envelope's code field equals the HTTP status written on the transport. -/
def envelopeOK (rep : HttpReply) : Prop :=
  (rep.body.success = false → rep.body.data = Payload.null) ∧ rep.body.code = rep.status

/-! ### Concrete fixtures for counterexamples and witnesses -/

/-- A concrete birth date. -/
def date1990 : Date := { year := 1990, month := 1, day := 1 }

/-- A concrete read-time date. -/
def today0 : Date := { year := 2026, month := 10, day := 12 }

/-- The empty store. -/
def st0 : Store := { rows := [], nextId := 1, now := today0, nowTs := 0 }

/-- A concrete stored row with single-character text fields. -/
def rowA : Row :=
  { id := 1, name := "a", email := "b", role := "c", birth := date1990, timestamp := 5 }

/-- A store holding exactly `rowA`. -/
def stA : Store := { rows := [rowA], nextId := 2, now := today0, nowTs := 6 }

/-- A concrete create/update body that does not specify a role. -/
def bodyBob : RequestBody :=
  { name := "Bob", email := "bob@x.com", role := none, birth := date1990 }

/-! ### Helper lemmas -/

lemma ilikeChars_percent_cons (ps : List Char) (s : List Char)
    (h : ilikeChars ps s = true) : ilikeChars ('%' :: ps) s = true := by
  have hdef : ilikeChars ('%' :: ps) s = s.tails.any (fun t => ilikeChars ps t) := rfl
  rw [hdef, List.any_eq_true]
  exact ⟨s, (List.mem_tails _ _).mpr (List.suffix_refl s), h⟩

lemma ilikeChars_percent_one (s : List Char) : ilikeChars ['%'] s = true := by
  have hdef : ilikeChars ['%'] s = s.tails.any (fun t => ilikeChars [] t) := rfl
  rw [hdef, List.any_eq_true]
  exact ⟨[], (List.mem_tails _ _).mpr List.nil_suffix, rfl⟩

lemma ilikeChars_three_percents (s : List Char) : ilikeChars ['%', '%', '%'] s = true :=
  ilikeChars_percent_cons _ _ (ilikeChars_percent_cons _ _ (ilikeChars_percent_one s))

lemma lookup_of_mem (sortBy : String) (h : sortBy ∈ allowedSortFields) :
    validSorts.lookup sortBy = some sortBy := by
  simp only [allowedSortFields, List.mem_cons, List.not_mem_nil, or_false] at h
  rcases h with rfl | rfl | rfl | rfl | rfl <;> rfl

lemma lookup_of_not_mem (sortBy : String) (h : sortBy ∉ allowedSortFields) :
    validSorts.lookup sortBy = none := by
  simp only [allowedSortFields, List.mem_cons, List.not_mem_nil, or_false, not_or] at h
  obtain ⟨h1, h2, h3, h4, h5⟩ := h
  have b1 : (sortBy == "name") = false := by simpa using h1
  have b2 : (sortBy == "email") = false := by simpa using h2
  have b3 : (sortBy == "role") = false := by simpa using h3
  have b4 : (sortBy == "age") = false := by simpa using h4
  have b5 : (sortBy == "timestamp") = false := by simpa using h5
  simp [validSorts, List.lookup, b1, b2, b3, b4, b5]

lemma listedUsers_getUsers (search sortBy order : String) (st : Store) :
    listedUsers (getUsers search sortBy order st) =
      (orderRows st.now (sortClause sortBy order).1 (sortClause sortBy order).2
        (filterRows search st.rows)).map (userOfRow st.now) := by
  cases hl : (orderRows st.now (sortClause sortBy order).1 (sortClause sortBy order).2
      (filterRows search st.rows)).map (userOfRow st.now) with
  | nil => simp [getUsers, listedUsers, marshalUsers, sendJSONResponse, hl]
  | cons a as => simp [getUsers, listedUsers, marshalUsers, sendJSONResponse, hl]

lemma envelopeOK_send (s : Bool) (c : Nat) (m : String) (d : Payload) :
    envelopeOK (sendJSONResponse s c m d) ↔ (s = false → d = Payload.null) := by
  simp [envelopeOK, sendJSONResponse]

/-! ## Claim theorems -/

/-- Claim C1: for every List request, when the sort parameter is one of
{name, email, role, age, timestamp} the constructed query orders by
exactly that field, with descending direction if and only if order
equals "desc" and ascending for any other order value (including
absent, modelled as the empty string); when sort is unrecognized or
absent, the constructed query orders by timestamp descending regardless
of the order parameter. -/
theorem getUsers_sort_selection (search sortBy order : String) :
    (sortBy ∈ allowedSortFields →
      (buildUsersQuery search sortBy order).text =
        (filteredSelect search).1 ++ " ORDER BY " ++ sortBy ++ " " ++
          (if order = "desc" then "DESC" else "ASC"))
  ∧ (sortBy ∉ allowedSortFields →
      (buildUsersQuery search sortBy order).text =
        (filteredSelect search).1 ++ " ORDER BY timestamp DESC") := by
  constructor
  · intro h
    simp [buildUsersQuery, sortClause, lookup_of_mem sortBy h]
  · intro h
    simp [buildUsersQuery, sortClause, lookup_of_not_mem sortBy h, String.append_assoc]

/-- Witness for C1: a recognized sort with descending order, and an
unrecognized sort falling back to timestamp descending. -/
theorem getUsers_sort_selection_witness :
    (buildUsersQuery "" "age" "desc").text =
      "SELECT id, name, email, role, birth, age, timestamp FROM users ORDER BY age DESC" ∧
    (buildUsersQuery "" "bogus" "desc").text =
      "SELECT id, name, email, role, birth, age, timestamp FROM users ORDER BY timestamp DESC" := by
  constructor
  · rw [(getUsers_sort_selection "" "age" "desc").1 (by decide)]
    decide
  · rw [(getUsers_sort_selection "" "bogus" "desc").2 (by decide)]
    decide

/-- Claim C2 is refuted as stated: with search "_" the result includes
the view of rowA although none of rowA's name, email or role
case-insensitively contains the substring "_" — the bound `%search%`
argument is an ILIKE pattern, so "_" matches any single character. -/
theorem getUsers_search_not_literal :
    ¬ (∀ u : User,
        u ∈ listedUsers (getUsers "_" "" "" stA) ↔
          ∃ r ∈ stA.rows, specRowMatches "_" r = true ∧ u = userOfRow stA.now r) := by
  intro h
  obtain ⟨r, hr, hm, _⟩ := (h (userOfRow stA.now rowA)).mp (by decide)
  have hr' : r = rowA := by simpa [stA] using hr
  subst hr'
  have hf : specRowMatches "_" rowA = false := by decide
  rw [hf] at hm
  exact Bool.noConfusion hm

/-- Claim C2 as amended: when search is non-empty the result contains
exactly the views of the rows whose name, email or role matches the
ILIKE pattern `%search%` (logical OR across the three fields, with `%`
and `_` acting as wildcards); when search is empty no filter is applied
and the result is a permutation of all rows' views. -/
theorem getUsers_search_filter (search sortBy order : String) (st : Store) (u : User) :
    (search ≠ "" →
      (u ∈ listedUsers (getUsers search sortBy order st) ↔
        ∃ r ∈ st.rows, rowMatchesSearch search r = true ∧ u = userOfRow st.now r))
  ∧ (search = "" →
      (listedUsers (getUsers search sortBy order st)).Perm
        (st.rows.map (userOfRow st.now))) := by
  constructor
  · intro h
    rw [listedUsers_getUsers]
    simp only [orderRows]
    constructor
    · intro hu
      obtain ⟨r, hr, rfl⟩ := List.mem_map.mp hu
      have hr' : r ∈ filterRows search st.rows := (List.mem_insertionSort _).mp hr
      rw [filterRows, if_neg h] at hr'
      obtain ⟨hrm, hmatch⟩ := List.mem_filter.mp hr'
      exact ⟨r, hrm, hmatch, rfl⟩
    · rintro ⟨r, hr, hmatch, rfl⟩
      refine List.mem_map.mpr ⟨r, ?_, rfl⟩
      refine (List.mem_insertionSort _).mpr ?_
      rw [filterRows, if_neg h]
      exact List.mem_filter.mpr ⟨hr, hmatch⟩
  · intro h
    rw [listedUsers_getUsers, filterRows, if_pos h]
    simp only [orderRows]
    exact (List.perm_insertionSort _ _).map (userOfRow st.now)

/-- Witness for C2 (amended): a concrete matching search. -/
theorem getUsers_search_filter_witness :
    userOfRow stA.now rowA ∈ listedUsers (getUsers "a" "" "" stA) :=
  ((getUsers_search_filter "a" "" "" stA (userOfRow stA.now rowA)).1 (by decide)).mpr
    ⟨rowA, by decide, by decide, rfl⟩

/-- Claim C3 is refuted as stated: a non-numeric path id fails the
store's integer cast of the id parameter, which the handler maps to the
500 branch, not to the 404 NotFound branch. -/
theorem getUser_non_numeric_id_is_500 :
    (getUser "abc" st0).status = 500 ∧ (getUser "abc" st0).body.success = false ∧
      ¬ (getUser "abc" st0).status = 404 := by decide

/-- Claim C3 as amended: a Get-by-id request never crashes; a numeric
id that matches no stored record yields the NotFound envelope (404),
while a non-numeric id fails the store's integer cast and yields an
internal-error envelope (500) carrying the cast error's text. -/
theorem getUser_outcomes (idToken : String) (st : Store) :
    (castInt idToken = none →
      getUser idToken st = sendJSONResponse false 500 (castErrorMessage idToken) Payload.null)
  ∧ (∀ n : Int, castInt idToken = some n → findRow st.rows n = none →
      getUser idToken st = sendJSONResponse false 404 "User not found" Payload.null) := by
  constructor
  · intro h
    simp [getUser, h]
  · intro n h1 h2
    simp [getUser, h1, h2]

/-- Witness for C3 (amended): a numeric id absent from the store. -/
theorem getUser_outcomes_witness :
    getUser "7" st0 = sendJSONResponse false 404 "User not found" Payload.null :=
  (getUser_outcomes "7" st0).2 7 (by decide) (by decide)

/-- Claim C4 fails on the code: a Create body that does not specify a
role decodes to the Go zero value "", which is explicitly bound as the
role column of the INSERT, so the stored and returned role is the empty
string and the schema's DEFAULT of "user" never applies. -/
theorem createUser_role_not_defaulted :
    ((createUser bodyBob st0).1 =
      sendJSONResponse true 201 "User created successfully"
        (Payload.user
          { id := 1, name := "Bob", email := "bob@x.com", role := "",
            birth := date1990, age := ageOf today0 date1990, timestamp := 0 }))
  ∧ ((createUser bodyBob st0).2.rows.map Row.role = [""])
  ∧ ¬ decodedRole bodyBob = "user" := by decide

/-- Claim C5 is refuted as stated: a List request matching zero rows is
a success envelope (success true, HTTP 200), but its data payload is
JSON null — the nil Go slice — not an empty array. -/
theorem getUsers_empty_result_is_null :
    (getUsers "" "" "" st0).body.success = true
  ∧ (getUsers "" "" "" st0).status = 200
  ∧ (getUsers "" "" "" st0).body.data = Payload.null
  ∧ ¬ (getUsers "" "" "" st0).body.data = Payload.userList [] := by decide

/-- Claim C5 as amended: for every List request whose filter matches
zero rows, the response is a success envelope (success true, HTTP 200)
whose data payload serializes as JSON null (a nil slice), not an error
and not an empty array. -/
theorem getUsers_empty_result (search sortBy order : String) (st : Store)
    (h : filterRows search st.rows = []) :
    getUsers search sortBy order st =
      sendJSONResponse true 200 "Users fetched successfully" Payload.null := by
  unfold getUsers
  rw [h]
  simp [orderRows, marshalUsers]

/-- Witness for C5 (amended): a search matching no row. -/
theorem getUsers_empty_result_witness :
    getUsers "zzz" "name" "asc" stA =
      sendJSONResponse true 200 "Users fetched successfully" Payload.null :=
  getUsers_empty_result "zzz" "name" "asc" stA (by decide)

/-- Claim C6: an Update that affects a row overwrites the four mutable
columns; the handler then re-reads the row by id from the post-write
store, that re-read finds exactly the updated row, the 200 response
carries precisely that re-read record, and its derived age is computed
from the newly written birth. -/
theorem updateUser_rereads (idToken : String) (body : RequestBody) (st : Store)
    (n : Int) (r0 : Row)
    (hcast : castInt idToken = some n)
    (hfind : findRow st.rows n = some r0)
    (hemail : emailTaken (st.rows.filter (fun r => !(r.id == n))) body.email = false) :
    findRow (updateUser idToken body st).2.rows n = some (updatedRow body r0)
  ∧ (updateUser idToken body st).1 =
      sendJSONResponse true 200 "User updated successfully"
        (Payload.user (userOfRow st.now (updatedRow body r0)))
  ∧ (userOfRow st.now (updatedRow body r0)).age = ageOf st.now body.birth := by
  have hmap : findRow (st.rows.map (fun r => if r.id == n then updatedRow body r else r)) n
      = some (updatedRow body r0) := by
    unfold findRow
    rw [List.find?_map]
    have hcomp :
        ((fun r : Row => r.id == n) ∘ fun r : Row => if r.id == n then updatedRow body r else r)
          = fun r : Row => r.id == n := by
      funext r
      by_cases h : (r.id == n) = true
      · simp [Function.comp, h, updatedRow]
      · simp [Function.comp, h]
    rw [hcomp]
    unfold findRow at hfind
    rw [hfind]
    have hr0 : (r0.id == n) = true := List.find?_some (p := fun r : Row => r.id == n) hfind
    have hr0n : r0.id = n := by simpa using hr0
    simp [hr0n]
  have hmap2 : findRow (st.rows.map (fun r => if r.id = n then updatedRow body r else r)) n
      = some (updatedRow body r0) := by simpa using hmap
  have hred : updateUser idToken body st =
      (sendJSONResponse true 200 "User updated successfully"
        (Payload.user (userOfRow st.now (updatedRow body r0))),
       { st with rows := st.rows.map (fun r => if r.id == n then updatedRow body r else r) }) := by
    simp [updateUser, hcast, hfind, hemail, hmap2]
  refine ⟨?_, ?_, ?_⟩
  · rw [hred]
    exact hmap
  · rw [hred]
  · simp [userOfRow, updatedRow]

/-- Witness for C6: updating the stored row of stA. -/
theorem updateUser_rereads_witness :
    findRow (updateUser "1" bodyBob stA).2.rows 1 = some (updatedRow bodyBob rowA)
  ∧ (updateUser "1" bodyBob stA).1 =
      sendJSONResponse true 200 "User updated successfully"
        (Payload.user (userOfRow stA.now (updatedRow bodyBob rowA)))
  ∧ (userOfRow stA.now (updatedRow bodyBob rowA)).age = ageOf stA.now bodyBob.birth :=
  updateUser_rereads "1" bodyBob stA 1 rowA (by decide) (by decide) (by decide)

/-- Claim C7: an Update or Delete whose numeric id matches no stored
record (zero rows affected) fails with the NotFound envelope and
returns the store unchanged. -/
theorem update_delete_missing_id (idToken : String) (body : RequestBody) (st : Store)
    (n : Int)
    (hcast : castInt idToken = some n)
    (hfind : findRow st.rows n = none) :
    updateUser idToken body st = (sendJSONResponse false 404 "User not found" Payload.null, st)
  ∧ deleteUser idToken st = (sendJSONResponse false 404 "User not found" Payload.null, st) := by
  constructor
  · simp [updateUser, hcast, hfind]
  · have hfind2 : List.find? (fun r => r.id == n) st.rows = none := by
      unfold findRow at hfind
      exact hfind
    have hall : ∀ r ∈ st.rows, (!(r.id == n)) = true := by
      intro r hr
      have hne := List.find?_eq_none.mp hfind2 r hr
      simpa using hne
    have hfilter : st.rows.filter (fun r => !(r.id == n)) = st.rows :=
      List.filter_eq_self.mpr hall
    simp [deleteUser, hcast, hfilter]

/-- Witness for C7: id 9 matches nothing in stA. -/
theorem update_delete_missing_id_witness :
    updateUser "9" bodyBob stA = (sendJSONResponse false 404 "User not found" Payload.null, stA)
  ∧ deleteUser "9" stA = (sendJSONResponse false 404 "User not found" Payload.null, stA) :=
  update_delete_missing_id "9" bodyBob stA 9 (by decide) (by decide)

/-- Claim C8: every reply produced by any handler satisfies the
envelope contract — a failure envelope carries null data, and the
envelope's code field equals the HTTP status written on the
transport. -/
theorem handlers_envelope_contract (search sortBy order idToken : String)
    (body : RequestBody) (st : Store) (pingError : Option String) :
    envelopeOK (getUsers search sortBy order st)
  ∧ envelopeOK (getUser idToken st)
  ∧ envelopeOK (createUser body st).1
  ∧ envelopeOK (updateUser idToken body st).1
  ∧ envelopeOK (deleteUser idToken st).1
  ∧ envelopeOK (healthDB pingError) := by
  refine ⟨?_, ?_, ?_, ?_, ?_, ?_⟩
  · simp [getUsers, envelopeOK_send]
  · rcases hc : castInt idToken with _ | n
    · simp [getUser, hc, envelopeOK_send]
    · rcases hf : findRow st.rows n with _ | r
      · simp [getUser, hc, hf, envelopeOK_send]
      · simp [getUser, hc, hf, envelopeOK_send]
  · by_cases he : emailTaken st.rows body.email <;> simp [createUser, he, envelopeOK_send]
  · simp only [updateUser]
    repeat' split
    all_goals simp [envelopeOK_send]
  · simp only [deleteUser]
    repeat' split
    all_goals simp [envelopeOK_send]
  · rcases pingError with _ | msg <;> simp [healthDB, envelopeOK_send]

/-- Witness for C8: the failure envelope of a bad id carries null data. -/
theorem handlers_envelope_contract_witness :
    (getUser "abc" st0).body.data = Payload.null :=
  ((handlers_envelope_contract "" "" "" "abc" bodyBob st0 none).2.1).1 (by decide)

/-- Claim C9: for every combination of search, sort and order inputs,
the constructed SQL text ends in an ORDER BY over a column from the
fixed allow-list, the text does not depend on the search value beyond
its emptiness, and the search value travels only in the bound-argument
list as the `%search%` pattern. -/
theorem getUsers_query_safety (search sortBy order : String) :
    ((buildUsersQuery search sortBy order).args =
      if search = "" then [] else [searchPattern search])
  ∧ (∃ f ∈ allowedSortFields, ∃ d, (d = "ASC" ∨ d = "DESC") ∧
      (buildUsersQuery search sortBy order).text =
        (if search = "" then baseSelect else baseSelect ++ searchCondition) ++
          " ORDER BY " ++ f ++ " " ++ d)
  ∧ (∀ s1 s2 : String, s1 ≠ "" → s2 ≠ "" →
      (buildUsersQuery s1 sortBy order).text = (buildUsersQuery s2 sortBy order).text) := by
  refine ⟨?_, ?_, ?_⟩
  · by_cases h : search = "" <;> simp [buildUsersQuery, filteredSelect, h]
  · by_cases hm : sortBy ∈ allowedSortFields
    · refine ⟨sortBy, hm, if order = "desc" then "DESC" else "ASC", ?_, ?_⟩
      · by_cases ho : order = "desc" <;> simp [ho]
      · by_cases h : search = "" <;>
          simp [buildUsersQuery, sortClause, lookup_of_mem sortBy hm, filteredSelect, h]
    · refine ⟨"timestamp", by decide, "DESC", Or.inr rfl, ?_⟩
      by_cases h : search = "" <;>
        simp [buildUsersQuery, sortClause, lookup_of_not_mem sortBy hm, filteredSelect, h]
  · intro s1 s2 h1 h2
    simp [buildUsersQuery, filteredSelect, h1, h2]

/-- Witness for C9: a concrete bound argument and two searches sharing
one SQL text. -/
theorem getUsers_query_safety_witness :
    (buildUsersQuery "x" "name" "desc").args = ["%x%"] ∧
    (buildUsersQuery "x" "name" "desc").text = (buildUsersQuery "y" "name" "desc").text := by
  constructor
  · rw [(getUsers_query_safety "x" "name" "desc").1]
    decide
  · exact (getUsers_query_safety "x" "name" "desc").2.2 "x" "y" (by decide) (by decide)

/-- Claim C10: the search value is embedded between % wildcards with no
escaping of LIKE metacharacters, so the filter follows ILIKE pattern
semantics rather than literal substring containment: search "%" matches
every row, and search "_" matches rowA although rowA contains no
literal underscore. -/
theorem getUsers_like_metacharacters :
    (∀ r : Row, rowMatchesSearch "%" r = true)
  ∧ rowMatchesSearch "_" rowA = true
  ∧ specRowMatches "_" rowA = false := by
  refine ⟨?_, by decide, by decide⟩
  intro r
  have hp : (searchPattern "%").data = ['%', '%', '%'] := by decide
  simp [rowMatchesSearch, ilike, hp, ilikeChars_three_percents]

end SimpleCrud
